import Mathlib

/-!
Verification of the zerium repository fragments against their specification.

Two pieces of code are embedded here, straight from the sources:

* `zrmash_io_prepare` — the C function resolving / creating the on-disk DAG
  file (`[8-byte magic number][payload]` layout).  Machine integers
  (`uint64_t`, `size_t`) are modelled as `Nat` with explicit reduction
  modulo `2^64` at the points where the C code computes in those types.
  The outcome of every external file-system call is an input (`IOEnv`),
  so the function itself is a pure, executable Lean definition whose
  result also records the observable trace of the run (which handles were
  opened and closed, where the returned handle is positioned, what was
  written).

* `New` / `CreateConsensusEngine` — the Go constructors of the Zerium
  service (`zrm/backend.go`).  External calls (database creation, genesis
  setup, blockchain construction) are again summarised by an outcome
  environment (`NewEnv`); consensus engines are represented by a value
  recording which external engine constructor was invoked and with which
  arguments.
-/

namespace Zerium

/-- Modulus of 64-bit unsigned machine arithmetic, `2 ^ 64`
(`uint64_t` and, on the LP64 hosts this code targets, `size_t`). -/
def UINT64_MOD : Nat := 18446744073709551616

/-- Upper bound of a signed 64-bit `long`, `2 ^ 63`: `fseek` takes a
`long int` offset, and the cast of a larger `uint64_t` value produces a
negative offset that `fseek` rejects. -/
def LONG_BOUND : Nat := 9223372036854775808

/-- Size in bytes of the leading magic number of a DAG file (8, fixed by
the on-disk format `[8-byte magic number][payload bytes]`). -/
def ZRMASH_DAG_MAGIC_NUM_SIZE : Nat := 8

/-- Modelled from the spec: the fixed 8-byte magic constant compared
against the leading bytes of a DAG file.  The header `io.h` that defines
it is not among the visible sources; the spec fixes only that it is a
fixed local 8-byte constant, so a representative value is used — no
theorem below depends on the concrete value. -/
def ZRMASH_DAG_MAGIC_NUM : Nat := 0xFEE1DEADBADDCAFE

/-- Return codes of the prepare step (`enum zrmash_io_rc`). -/
inductive zrmash_io_rc where
  | FAIL
  | MEMO_SIZE_MISMATCH
  | MEMO_MISMATCH
  | MEMO_MATCH
  deriving DecidableEq, Repr

/-- Outcomes of the external file-system calls made by `zrmash_io_prepare`,
together with the observable state of the file they touch.  Each field
fixes the result of one call site of the C function:
`mkdir_ok` for `zrmash_mkdir`, `filename_ok` for
`zrmash_io_create_filename`, `open_read_ok` for `zrmash_fopen(tmpfile, "rb+")`
(false both when the file is absent and when it cannot be opened),
`stat_ok`/`found_size` for `zrmash_file_size`, `read_ok`/`file_magic` for
the `fread` of the leading 8 bytes (`file_magic` is those bytes as a local
endianness `uint64_t`; the read also fails when fewer than 8 bytes exist),
`open_write_ok` for `zrmash_fopen(tmpfile, "wb+")`, and
`seek_ok`/`write_ok`/`flush_ok` for `fseek`/`fputc`/`fflush`. -/
structure IOEnv where
  mkdir_ok : Bool
  filename_ok : Bool
  open_read_ok : Bool
  stat_ok : Bool
  found_size : Nat
  read_ok : Bool
  file_magic : Nat
  open_write_ok : Bool
  seek_ok : Bool
  write_ok : Bool
  flush_ok : Bool
  deriving DecidableEq, Repr

/-- Result of a run of `zrmash_io_prepare`: the return code plus the
observable trace of the run.  `outputWritten` records whether
`*output_file = f` was executed; `outPos` and `outSize` are the stream
position and the on-disk size of the returned handle (0 when none is
returned); `openAttempted` records whether the read-path
`zrmash_fopen(tmpfile, "rb+")` was called, `openedExisting` whether it
succeeded, `readAttempted` whether `fread` was called on the existing
file; `opens`/`closes` count successful `fopen`s and `fclose`s (a handle
stored into `*output_file` is transferred to the caller, not closed);
`sentinelAt` is the offset at which the one-byte sentinel `'\n'` was
written, if it was, and `flushed` whether the subsequent `fflush`
succeeded. -/
structure PrepareResult where
  rc : zrmash_io_rc := .FAIL
  outputWritten : Bool := false
  outPos : Nat := 0
  outSize : Nat := 0
  openAttempted : Bool := false
  openedExisting : Bool := false
  readAttempted : Bool := false
  opens : Nat := 0
  closes : Nat := 0
  sentinelAt : Option Nat := none
  flushed : Bool := false
  deriving DecidableEq, Repr

/-- Offset passed to `fseek` by the creation branch:
`file_size + ZRMASH_DAG_MAGIC_NUM_SIZE - 1` computed in `uint64_t`
arithmetic (that is, `+ 7` modulo `2 ^ 64`). -/
def seekTarget (file_size : Nat) : Nat :=
  (file_size % UINT64_MOD + (ZRMASH_DAG_MAGIC_NUM_SIZE - 1)) % UINT64_MOD

/-- Value of the `uint64_t`/`size_t` expression
`found_size - ZRMASH_DAG_MAGIC_NUM_SIZE`: subtraction of 8 modulo `2 ^ 64`
(it wraps around when `found_size < 8`). -/
def foundMinusMagic (found_size : Nat) : Nat :=
  (found_size % UINT64_MOD + (UINT64_MOD - ZRMASH_DAG_MAGIC_NUM_SIZE)) % UINT64_MOD

/-- Creation branch of `zrmash_io_prepare` (the block after the C comment
`file does not exist, will need to be created`): open `"wb+"` (truncating
the file to zero bytes), `fseek` to `seekTarget file_size` (failing when
the offset does not fit a signed `long`), write the one-byte sentinel with
`fputc`, `fflush`; on any failure close the handle and return with the
code left at `ZRMASH_IO_FAIL`, on success set
`ret = ZRMASH_IO_MEMO_MISMATCH` and `goto set_file`.  `openAtt` records
whether the read-path `fopen` was attempted before falling through here. -/
def zrmash_io_prepare_create (env : IOEnv) (file_size : Nat) (openAtt : Bool) :
    PrepareResult :=
  if env.open_write_ok = false then
    { rc := .FAIL, openAttempted := openAtt }
  else if env.seek_ok = false ∨ LONG_BOUND ≤ seekTarget file_size then
    { rc := .FAIL, openAttempted := openAtt, opens := 1, closes := 1 }
  else if env.write_ok = false then
    { rc := .FAIL, openAttempted := openAtt, opens := 1, closes := 1 }
  else if env.flush_ok = false then
    { rc := .FAIL, openAttempted := openAtt, opens := 1, closes := 1,
      sentinelAt := some (seekTarget file_size) }
  else
    { rc := .MEMO_MISMATCH, outputWritten := true,
      outPos := seekTarget file_size + 1, outSize := seekTarget file_size + 1,
      openAttempted := openAtt, opens := 1, closes := 0,
      sentinelAt := some (seekTarget file_size), flushed := true }

/-- Shallow embedding of `zrmash_io_prepare` (C source); `ret` starts at
`ZRMASH_IO_FAIL`, each `goto` to a cleanup label becomes an early return.
Reading path (only when `force_create` is unset and the `"rb+"` open
succeeds): query the file size (failure → `FAIL`); compare
`file_size != found_size - ZRMASH_DAG_MAGIC_NUM_SIZE` in `uint64_t`
arithmetic (mismatch → `MEMO_SIZE_MISMATCH`); `fread` the 8-byte magic
number (failure → `MEMO_SIZE_MISMATCH`); compare it with
`ZRMASH_DAG_MAGIC_NUM` (mismatch → `MEMO_SIZE_MISMATCH`); all passed →
`MEMO_MATCH` and the handle is stored into `*output_file` positioned just
after the magic number.  Otherwise fall through to
`zrmash_io_prepare_create`. -/
def zrmash_io_prepare (env : IOEnv) (file_size : Nat) (force_create : Bool) :
    PrepareResult :=
  if env.mkdir_ok = false then
    { rc := .FAIL }
  else if env.filename_ok = false then
    { rc := .FAIL }
  else if force_create = true then
    zrmash_io_prepare_create env file_size false
  else if env.open_read_ok = false then
    zrmash_io_prepare_create env file_size true
  else if env.stat_ok = false then
    { rc := .FAIL, openAttempted := true, openedExisting := true,
      opens := 1, closes := 1 }
  else if file_size % UINT64_MOD ≠ foundMinusMagic env.found_size then
    { rc := .MEMO_SIZE_MISMATCH, openAttempted := true, openedExisting := true,
      opens := 1, closes := 1 }
  else if env.read_ok = false ∨ env.found_size < ZRMASH_DAG_MAGIC_NUM_SIZE then
    { rc := .MEMO_SIZE_MISMATCH, openAttempted := true, openedExisting := true,
      readAttempted := true, opens := 1, closes := 1 }
  else if env.file_magic ≠ ZRMASH_DAG_MAGIC_NUM then
    { rc := .MEMO_SIZE_MISMATCH, openAttempted := true, openedExisting := true,
      readAttempted := true, opens := 1, closes := 1 }
  else
    { rc := .MEMO_MATCH, outputWritten := true,
      outPos := ZRMASH_DAG_MAGIC_NUM_SIZE, outSize := env.found_size,
      openAttempted := true, openedExisting := true, readAttempted := true,
      opens := 1, closes := 0 }

/-- Environment in which every file-system call succeeds and the DAG file
on disk is well formed for payload size 16: 24 = 16 + 8 bytes on disk and
the correct leading magic number. -/
def allOkEnv : IOEnv :=
  { mkdir_ok := true, filename_ok := true, open_read_ok := true,
    stat_ok := true, found_size := 24, read_ok := true,
    file_magic := ZRMASH_DAG_MAGIC_NUM, open_write_ok := true,
    seek_ok := true, write_ok := true, flush_ok := true }

/-- Modelled from the spec: configuration of the proof-of-authority
(clique) engine.  The `params` file declaring `ChainConfig` is not among
the visible sources; the visible code consults only whether the clique
configuration is present, and hands the value unchanged to `clique.New`. -/
structure CliqueConfig where
  period : Nat
  epoch : Nat
  deriving DecidableEq, Repr

/-- Chain configuration as consulted by `CreateConsensusEngine`: `Clique`
is a pointer in Go (`nil` when proof-of-authority is not requested),
rendered as an `Option`. -/
structure ChainConfig where
  Clique : Option CliqueConfig
  deriving DecidableEq, Repr

/-- Fields of `zrm.Config` (Go source) consulted by `New` and
`CreateConsensusEngine`; the remaining fields of the struct are passed
opaquely to external constructors and are omitted. -/
structure Config where
  NetworkId : Nat
  SyncMode : Nat
  SkipBcVersionCheck : Bool
  EthashCacheDir : String
  EthashCachesInMem : Int
  EthashCachesOnDisk : Int
  EthashDatasetDir : String
  EthashDatasetsInMem : Int
  EthashDatasetsOnDisk : Int
  PowFake : Bool
  PowTest : Bool
  PowShared : Bool
  deriving DecidableEq, Repr

/-- Modelled from the spec: the light-sync member of the downloader
sync-mode enumeration (`zrm/downloader` is not under the visible sources;
`SyncMode` is an integer-valued type and `LightSync` one fixed member of
it — the concrete value is representative, no theorem depends on it). -/
def LightSync : Nat := 2

/-- Consensus engine instance produced by `CreateConsensusEngine`: each
constructor records which external engine constructor was invoked and with
which arguments.  `realEthash` additionally records the thread count set
immediately afterwards via `SetThreads` (`-1` disables CPU mining). -/
inductive Engine where
  | clique (cfg : CliqueConfig)
  | fakeEthash
  | testEthash
  | sharedEthash
  | realEthash (cacheDir : String) (cachesInMem cachesOnDisk : Int)
      (datasetDir : String) (datasetsInMem datasetsOnDisk : Int)
      (threads : Int)
  deriving DecidableEq, Repr

/-- Shallow embedding of `CreateConsensusEngine` (Go source): when
proof-of-authority is requested (`chainConfig.Clique != nil`) the clique
engine is returned; otherwise the PoW engine is selected by the mode
flags in order `PowFake`, `PowTest`, `PowShared`, and in the default case
the real zrmash engine is built from the cache/dataset directory and
retention settings (the cache directory resolved against the node context
via `ctx.ResolvePath`) with CPU mining disabled (`SetThreads(-1)`). -/
def CreateConsensusEngine (resolvePath : String → String) (config : Config)
    (chainConfig : ChainConfig) : Engine :=
  match chainConfig.Clique with
  | some cliqueCfg => Engine.clique cliqueCfg
  | none =>
    if config.PowFake = true then
      Engine.fakeEthash
    else if config.PowTest = true then
      Engine.testEthash
    else if config.PowShared = true then
      Engine.sharedEthash
    else
      Engine.realEthash (resolvePath config.EthashCacheDir)
        config.EthashCachesInMem config.EthashCachesOnDisk
        config.EthashDatasetDir config.EthashDatasetsInMem
        config.EthashDatasetsOnDisk (-1)

/-- Errors returned by `New`, one constructor per `return nil, err` site
of the Go source (`invalidSyncMode` carries the offending mode, as the
`fmt.Errorf` format string does). -/
inductive NewError where
  | lightSyncUnsupported
  | invalidSyncMode (mode : Nat)
  | createDBFailed
  | genesisSetupFailed
  | blockChainVersionMismatch
  | newBlockChainFailed
  | newProtocolManagerFailed
  deriving DecidableEq, Repr

/-- Outcomes of the external calls made by `New`, in source order:
`resolvePath` stands for `ctx.ResolvePath`; `createDB_ok` for
`CreateDB`; `genesisErr`/`genesisCompat` for `core.SetupGenesisBlock`
(whether it returned an error and whether that error is a
`*params.ConfigCompatError`) and `chainConfig` for the chain
configuration it returns; `bcVersionMismatch` for the stored blockchain
database version differing from both `core.BlockChainVersion` and 0;
`newBlockChain_ok` for `core.NewBlockChain` and `newProtocolManager_ok`
for `NewProtocolManager`. -/
structure NewEnv where
  resolvePath : String → String
  createDB_ok : Bool
  genesisErr : Bool
  genesisCompat : Bool
  chainConfig : ChainConfig
  bcVersionMismatch : Bool
  newBlockChain_ok : Bool
  newProtocolManager_ok : Bool

/-- Observable slice of a constructed `Zerium` service: the consensus
engine selected for it and the network id it serves. -/
structure ZeriumSvc where
  engine : Engine
  networkId : Nat
  deriving DecidableEq, Repr

/-- Result of a run of `New`: the returned service pointer (`none` for Go
`nil`), the returned error, and whether a consensus engine respectively a
blockchain were created during the run. -/
structure NewResult where
  service : Option ZeriumSvc
  err : Option NewError
  engineCreated : Bool
  blockchainCreated : Bool
  deriving DecidableEq, Repr

/-- Shallow embedding of `New` (Go source), parametrised by the
`SyncMode.IsValid` predicate of the downloader package (not among the
visible sources).  Source order: reject light sync, reject invalid sync
modes, create the chain database, set up the genesis block (only
compat errors are tolerated), build the `Zerium` struct — invoking
`CreateConsensusEngine` in its literal — check the stored blockchain
database version unless skipped, build the blockchain, the transaction
pool and the protocol manager, and return the service. -/
def New (isValid : Nat → Bool) (env : NewEnv) (config : Config) : NewResult :=
  if config.SyncMode = LightSync then
    { service := none, err := some .lightSyncUnsupported,
      engineCreated := false, blockchainCreated := false }
  else if isValid config.SyncMode = false then
    { service := none, err := some (.invalidSyncMode config.SyncMode),
      engineCreated := false, blockchainCreated := false }
  else if env.createDB_ok = false then
    { service := none, err := some .createDBFailed,
      engineCreated := false, blockchainCreated := false }
  else if env.genesisErr = true ∧ env.genesisCompat = false then
    { service := none, err := some .genesisSetupFailed,
      engineCreated := false, blockchainCreated := false }
  else
    let engine := CreateConsensusEngine env.resolvePath config env.chainConfig
    if config.SkipBcVersionCheck = false ∧ env.bcVersionMismatch = true then
      { service := none, err := some .blockChainVersionMismatch,
        engineCreated := true, blockchainCreated := false }
    else if env.newBlockChain_ok = false then
      { service := none, err := some .newBlockChainFailed,
        engineCreated := true, blockchainCreated := false }
    else if env.newProtocolManager_ok = false then
      { service := none, err := some .newProtocolManagerFailed,
        engineCreated := true, blockchainCreated := true }
    else
      { service := some { engine := engine, networkId := config.NetworkId },
        err := none, engineCreated := true, blockchainCreated := true }

/-- Sample configuration for concrete instantiations: fast sync, all PoW
mode flags off. -/
def cfg0 : Config :=
  { NetworkId := 1, SyncMode := 1, SkipBcVersionCheck := false,
    EthashCacheDir := "zrmash", EthashCachesInMem := 2,
    EthashCachesOnDisk := 3, EthashDatasetDir := "", EthashDatasetsInMem := 1,
    EthashDatasetsOnDisk := 2, PowFake := false, PowTest := false,
    PowShared := false }

/-- Environment for `New` in which every external call succeeds and the
genesis chain configuration does not request proof-of-authority. -/
def okNewEnv : NewEnv :=
  { resolvePath := id, createDB_ok := true, genesisErr := false,
    genesisCompat := false, chainConfig := { Clique := none },
    bcVersionMismatch := false, newBlockChain_ok := true,
    newProtocolManager_ok := true }

/-- Validity predicate instantiating the downloader sync-mode check in
concrete runs: the integer modes up to `LightSync` are the valid ones. -/
def sampleIsValid (mode : Nat) : Bool := decide (mode ≤ LightSync)

/-- Sample clique configuration for concrete instantiations. -/
def clique0 : CliqueConfig := { period := 15, epoch := 30000 }

end Zerium

namespace Zerium

/-- Helper: when `found_size < 2 ^ 64` is at least the 8-byte magic size,
the machine comparison `file_size == found_size - 8` (for
`file_size < 2 ^ 64`) holds exactly when `found_size = file_size + 8` over
the natural numbers. -/
theorem foundMinusMagic_eq_iff (file_size found_size : Nat)
    (hfs : file_size < UINT64_MOD) (hfo : found_size < UINT64_MOD)
    (hge : ZRMASH_DAG_MAGIC_NUM_SIZE ≤ found_size) :
    file_size % UINT64_MOD = foundMinusMagic found_size ↔
      found_size = file_size + ZRMASH_DAG_MAGIC_NUM_SIZE := by
  simp only [foundMinusMagic, UINT64_MOD, ZRMASH_DAG_MAGIC_NUM_SIZE] at *
  omega

/-- C1: without the force-create flag, when the DAG file exists (the
`"rb+"` open succeeds) and its queried on-disk size differs from
`expectedPayloadSize + magicNumberSize` (8 bytes), `zrmash_io_prepare`
returns the size-mismatch code and never the match code, regardless of the
file contents (the magic bytes and the outcome of reading them). -/
theorem io_prepare_size_mismatch (env : IOEnv) (file_size : Nat)
    (hm : env.mkdir_ok = true) (hf : env.filename_ok = true)
    (ho : env.open_read_ok = true) (hs : env.stat_ok = true)
    (hfs : file_size < UINT64_MOD) (hfo : env.found_size < UINT64_MOD)
    (hne : env.found_size ≠ file_size + ZRMASH_DAG_MAGIC_NUM_SIZE) :
    (zrmash_io_prepare env file_size false).rc = .MEMO_SIZE_MISMATCH ∧
    (zrmash_io_prepare env file_size false).rc ≠ .MEMO_MATCH := by
  have hrc : (zrmash_io_prepare env file_size false).rc = .MEMO_SIZE_MISMATCH := by
    by_cases hsz : file_size % UINT64_MOD = foundMinusMagic env.found_size
    · have hlt : env.found_size < ZRMASH_DAG_MAGIC_NUM_SIZE := by
        by_contra hge
        push_neg at hge
        exact hne ((foundMinusMagic_eq_iff file_size env.found_size hfs hfo hge).mp hsz)
      simp [zrmash_io_prepare, hm, hf, ho, hs, hsz, hlt]
    · simp [zrmash_io_prepare, hm, hf, ho, hs, hsz]
  exact ⟨hrc, by rw [hrc]; simp⟩

/-- C1 witness: a file of 10 bytes on disk against an expected payload of
16 bytes (so an expected total of 24 bytes) is reported as a size
mismatch. -/
theorem io_prepare_size_mismatch_witness :
    (zrmash_io_prepare { allOkEnv with found_size := 10 } 16 false).rc =
        .MEMO_SIZE_MISMATCH ∧
    (zrmash_io_prepare { allOkEnv with found_size := 10 } 16 false).rc ≠
        .MEMO_MATCH :=
  io_prepare_size_mismatch { allOkEnv with found_size := 10 } 16
    rfl rfl rfl rfl (by decide) (by decide) (by decide)

/-- C2: without the force-create flag, when the DAG file exists, its size
equals `expectedPayloadSize + magicNumberSize`, and its leading 8-byte
magic number differs from `ZRMASH_DAG_MAGIC_NUM`, `zrmash_io_prepare`
reports a mismatch — concretely the `MEMO_SIZE_MISMATCH` code, one of the
two mismatch codes — and never the match code.  This holds whether or not
the read of the magic number itself succeeds. -/
theorem io_prepare_magic_mismatch (env : IOEnv) (file_size : Nat)
    (hm : env.mkdir_ok = true) (hf : env.filename_ok = true)
    (ho : env.open_read_ok = true) (hs : env.stat_ok = true)
    (hfo : env.found_size < UINT64_MOD)
    (hsz : env.found_size = file_size + ZRMASH_DAG_MAGIC_NUM_SIZE)
    (hmagic : env.file_magic ≠ ZRMASH_DAG_MAGIC_NUM) :
    (zrmash_io_prepare env file_size false).rc = .MEMO_SIZE_MISMATCH ∧
    (zrmash_io_prepare env file_size false).rc ≠ .MEMO_MATCH := by
  have hfs : file_size < UINT64_MOD := by
    simp only [UINT64_MOD, ZRMASH_DAG_MAGIC_NUM_SIZE] at *
    omega
  have hge : ZRMASH_DAG_MAGIC_NUM_SIZE ≤ env.found_size := by
    simp only [ZRMASH_DAG_MAGIC_NUM_SIZE] at *
    omega
  have hszm : file_size % UINT64_MOD = foundMinusMagic env.found_size :=
    (foundMinusMagic_eq_iff file_size env.found_size hfs hfo hge).mpr hsz
  have hrc : (zrmash_io_prepare env file_size false).rc = .MEMO_SIZE_MISMATCH := by
    cases hro : env.read_ok with
    | false => simp [zrmash_io_prepare, hm, hf, ho, hs, hszm, hro]
    | true =>
      have hnlt : ¬ env.found_size < ZRMASH_DAG_MAGIC_NUM_SIZE := by omega
      simp [zrmash_io_prepare, hm, hf, ho, hs, hszm, hro, hnlt, hmagic]
  exact ⟨hrc, by rw [hrc]; simp⟩

/-- C2 witness: a correctly sized file (24 = 16 + 8 bytes) whose leading
8 bytes are 0 instead of the magic constant is reported as a mismatch,
not as a match. -/
theorem io_prepare_magic_mismatch_witness :
    (zrmash_io_prepare { allOkEnv with file_magic := 0 } 16 false).rc =
        .MEMO_SIZE_MISMATCH ∧
    (zrmash_io_prepare { allOkEnv with file_magic := 0 } 16 false).rc ≠
        .MEMO_MATCH :=
  io_prepare_magic_mismatch { allOkEnv with file_magic := 0 } 16
    rfl rfl rfl rfl (by decide) (by decide) (by decide)

/-- Helper: for payload sizes whose padded total fits a signed `long`,
the `fseek` offset of the creation branch is exactly
`file_size + 7` (no 64-bit wrap-around). -/
theorem seekTarget_eq (file_size : Nat)
    (hsize : file_size + ZRMASH_DAG_MAGIC_NUM_SIZE ≤ LONG_BOUND) :
    seekTarget file_size = file_size + (ZRMASH_DAG_MAGIC_NUM_SIZE - 1) := by
  simp only [seekTarget, UINT64_MOD, ZRMASH_DAG_MAGIC_NUM_SIZE, LONG_BOUND] at *
  omega

/-- Helper: a fully successful run of the creation branch, for a payload
size whose padded total fits a signed `long`: the file is pre-allocated to
`file_size + 8` bytes by the sentinel written at offset `file_size + 7`,
the stream is flushed, the handle is handed to the caller positioned just
past the sentinel, and the code is `MEMO_MISMATCH`. -/
theorem prepare_create_success_eq (env : IOEnv) (file_size : Nat) (oa : Bool)
    (hw : env.open_write_ok = true) (hsk : env.seek_ok = true)
    (hwr : env.write_ok = true) (hfl : env.flush_ok = true)
    (hsize : file_size + ZRMASH_DAG_MAGIC_NUM_SIZE ≤ LONG_BOUND) :
    zrmash_io_prepare_create env file_size oa =
      { rc := .MEMO_MISMATCH, outputWritten := true,
        outPos := file_size + ZRMASH_DAG_MAGIC_NUM_SIZE,
        outSize := file_size + ZRMASH_DAG_MAGIC_NUM_SIZE,
        openAttempted := oa, opens := 1, closes := 0,
        sentinelAt := some (file_size + (ZRMASH_DAG_MAGIC_NUM_SIZE - 1)),
        flushed := true } := by
  have ht := seekTarget_eq file_size hsize
  have hnb : ¬ LONG_BOUND ≤ file_size + (ZRMASH_DAG_MAGIC_NUM_SIZE - 1) := by
    simp only [ZRMASH_DAG_MAGIC_NUM_SIZE, LONG_BOUND] at *
    omega
  have harith : file_size + (ZRMASH_DAG_MAGIC_NUM_SIZE - 1) + 1 =
      file_size + ZRMASH_DAG_MAGIC_NUM_SIZE := by
    simp [ZRMASH_DAG_MAGIC_NUM_SIZE]
  simp [zrmash_io_prepare_create, hw, hsk, hwr, hfl, ht, hnb, harith]

/-- Helper: every run of the creation branch either fails — reporting
`FAIL`, writing no output handle, closing every handle it opened — or
succeeds, reporting `MEMO_MISMATCH` with the handle stored for the
caller. -/
theorem prepare_create_rc (env : IOEnv) (file_size : Nat) (oa : Bool) :
    ((zrmash_io_prepare_create env file_size oa).rc = .FAIL ∧
      (zrmash_io_prepare_create env file_size oa).outputWritten = false ∧
      (zrmash_io_prepare_create env file_size oa).closes =
        (zrmash_io_prepare_create env file_size oa).opens) ∨
    ((zrmash_io_prepare_create env file_size oa).rc = .MEMO_MISMATCH ∧
      (zrmash_io_prepare_create env file_size oa).outputWritten = true) := by
  unfold zrmash_io_prepare_create
  split_ifs <;> simp

/-- Helper: the trace flags of the creation branch — the read-path open
attempt is exactly what is recorded in `openAtt`, the existing file is
never opened and never read. -/
theorem prepare_create_trace (env : IOEnv) (file_size : Nat) (oa : Bool) :
    (zrmash_io_prepare_create env file_size oa).openAttempted = oa ∧
    (zrmash_io_prepare_create env file_size oa).openedExisting = false ∧
    (zrmash_io_prepare_create env file_size oa).readAttempted = false := by
  unfold zrmash_io_prepare_create
  split_ifs <;> simp

/-- Helper: the creation branch consults only the creation-related call
outcomes of the environment (`"wb+"` open, seek, write, flush). -/
theorem prepare_create_congr (e1 e2 : IOEnv) (file_size : Nat) (oa : Bool)
    (h1 : e1.open_write_ok = e2.open_write_ok) (h2 : e1.seek_ok = e2.seek_ok)
    (h3 : e1.write_ok = e2.write_ok) (h4 : e1.flush_ok = e2.flush_ok) :
    zrmash_io_prepare_create e1 file_size oa =
      zrmash_io_prepare_create e2 file_size oa := by
  unfold zrmash_io_prepare_create
  rw [h1, h2, h3, h4]

/-- Helper: once the directory and the filename exist, a run that takes
the creation path (forced, or the existing file failed to open) is exactly
a run of the creation branch. -/
theorem prepare_create_step (env : IOEnv) (file_size : Nat) (force_create : Bool)
    (hm : env.mkdir_ok = true) (hf : env.filename_ok = true)
    (hcreate : force_create = true ∨ env.open_read_ok = false) :
    zrmash_io_prepare env file_size force_create =
      zrmash_io_prepare_create env file_size (!force_create) := by
  rcases hcreate with hc | hc
  · simp [zrmash_io_prepare, hm, hf, hc]
  · cases force_create <;> simp [zrmash_io_prepare, hm, hf, hc]

/-- C3 counterexample: a fully successful forced-creation run for payload
size 16 returns the mismatch-created code with the handle positioned at
offset 24 — the end of the pre-allocated file — and not at offset 0: the
C source never seeks back to the start before `set_file`, so the claim
that the handle is left positioned at the start of the file is false. -/
theorem io_prepare_create_not_rewound :
    (zrmash_io_prepare allOkEnv 16 true).rc = .MEMO_MISMATCH ∧
    (zrmash_io_prepare allOkEnv 16 true).outputWritten = true ∧
    (zrmash_io_prepare allOkEnv 16 true).outSize = 24 ∧
    (zrmash_io_prepare allOkEnv 16 true).outPos = 24 ∧
    (zrmash_io_prepare allOkEnv 16 true).outPos ≠ 0 := by decide

/-- C3 (amended): on every successful run of the creation path (file
absent or force-create set) with a padded size that fits a signed `long`,
`zrmash_io_prepare` pre-allocates the file to exactly
`expectedPayloadSize + magicNumberSize` bytes by seeking to the last byte,
writing a one-byte sentinel there and flushing — but it leaves the file
handle positioned at the END of the pre-allocated file (offset
`expectedPayloadSize + magicNumberSize`), not at the start. -/
theorem io_prepare_create_success (env : IOEnv) (file_size : Nat)
    (force_create : Bool)
    (hcreate : force_create = true ∨ env.open_read_ok = false)
    (hm : env.mkdir_ok = true) (hf : env.filename_ok = true)
    (hw : env.open_write_ok = true) (hsk : env.seek_ok = true)
    (hwr : env.write_ok = true) (hfl : env.flush_ok = true)
    (hsize : file_size + ZRMASH_DAG_MAGIC_NUM_SIZE ≤ LONG_BOUND) :
    (zrmash_io_prepare env file_size force_create).rc = .MEMO_MISMATCH ∧
    (zrmash_io_prepare env file_size force_create).outputWritten = true ∧
    (zrmash_io_prepare env file_size force_create).outSize =
      file_size + ZRMASH_DAG_MAGIC_NUM_SIZE ∧
    (zrmash_io_prepare env file_size force_create).sentinelAt =
      some (file_size + (ZRMASH_DAG_MAGIC_NUM_SIZE - 1)) ∧
    (zrmash_io_prepare env file_size force_create).flushed = true ∧
    (zrmash_io_prepare env file_size force_create).outPos =
      file_size + ZRMASH_DAG_MAGIC_NUM_SIZE ∧
    (zrmash_io_prepare env file_size force_create).outPos ≠ 0 := by
  rw [prepare_create_step env file_size force_create hm hf hcreate,
    prepare_create_success_eq env file_size (!force_create) hw hsk hwr hfl hsize]
  refine ⟨rfl, rfl, rfl, rfl, rfl, rfl, ?_⟩
  simp only [ZRMASH_DAG_MAGIC_NUM_SIZE]
  omega

/-- C3 (amended) witness: the successful forced creation for payload size
16 allocates 24 bytes, writes the sentinel at offset 23, flushes, and
returns the handle at offset 24. -/
theorem io_prepare_create_success_witness :
    (zrmash_io_prepare allOkEnv 16 true).rc = .MEMO_MISMATCH ∧
    (zrmash_io_prepare allOkEnv 16 true).outputWritten = true ∧
    (zrmash_io_prepare allOkEnv 16 true).outSize =
      16 + ZRMASH_DAG_MAGIC_NUM_SIZE ∧
    (zrmash_io_prepare allOkEnv 16 true).sentinelAt =
      some (16 + (ZRMASH_DAG_MAGIC_NUM_SIZE - 1)) ∧
    (zrmash_io_prepare allOkEnv 16 true).flushed = true ∧
    (zrmash_io_prepare allOkEnv 16 true).outPos =
      16 + ZRMASH_DAG_MAGIC_NUM_SIZE ∧
    (zrmash_io_prepare allOkEnv 16 true).outPos ≠ 0 :=
  io_prepare_create_success allOkEnv 16 true (Or.inl rfl)
    rfl rfl rfl rfl rfl rfl (by decide)

/-- C5: on every run taking the creation path the match code is
unreachable — the `ret = ZRMASH_IO_MEMO_MATCH` assignment placed after the
unconditional `goto set_file` is dead code — and every successful run of
that path (one that hands a file handle to the caller) returns the
mismatch-created code. -/
theorem io_prepare_create_never_match (env : IOEnv) (file_size : Nat)
    (force_create : Bool)
    (hcreate : force_create = true ∨ env.open_read_ok = false) :
    (zrmash_io_prepare env file_size force_create).rc ≠ .MEMO_MATCH ∧
    ((zrmash_io_prepare env file_size force_create).outputWritten = true →
      (zrmash_io_prepare env file_size force_create).rc = .MEMO_MISMATCH) := by
  by_cases hm : env.mkdir_ok = false
  · simp [zrmash_io_prepare, hm]
  · by_cases hf : env.filename_ok = false
    · simp [zrmash_io_prepare, hm, hf]
    · rw [Bool.not_eq_false] at hm hf
      rw [prepare_create_step env file_size force_create hm hf hcreate]
      rcases prepare_create_rc env file_size (!force_create) with ⟨h1, h2, _⟩ | ⟨h1, h2⟩
      · exact ⟨by rw [h1]; simp, by rw [h2]; simp⟩
      · exact ⟨by rw [h1]; simp, fun _ => h1⟩

/-- C5 witness: a concrete successful forced-creation run returns the
mismatch-created code and not the match code. -/
theorem io_prepare_create_never_match_witness :
    (zrmash_io_prepare allOkEnv 32 true).rc ≠ .MEMO_MATCH ∧
    (zrmash_io_prepare allOkEnv 32 true).rc = .MEMO_MISMATCH :=
  ⟨(io_prepare_create_never_match allOkEnv 32 true (Or.inl rfl)).1,
   (io_prepare_create_never_match allOkEnv 32 true (Or.inl rfl)).2 (by decide)⟩

/-- C6: with the force-create flag set, `zrmash_io_prepare` never attempts
to open the existing file and never reads from it, the match code is
unreachable, and the result is unchanged under arbitrary modification of
every read-path observation (existing-file openability, size query
outcome, on-disk size, read outcome and magic bytes): pre-existing file
content is never consulted. -/
theorem io_prepare_force_skips_existing (env : IOEnv) (file_size : Nat)
    (b1 b2 b3 : Bool) (n m : Nat) :
    (zrmash_io_prepare env file_size true).openAttempted = false ∧
    (zrmash_io_prepare env file_size true).openedExisting = false ∧
    (zrmash_io_prepare env file_size true).readAttempted = false ∧
    (zrmash_io_prepare env file_size true).rc ≠ .MEMO_MATCH ∧
    zrmash_io_prepare
        { env with
          open_read_ok := b1,
          stat_ok := b2,
          read_ok := b3,
          found_size := n,
          file_magic := m } file_size true =
      zrmash_io_prepare env file_size true := by
  by_cases hm : env.mkdir_ok = false
  · simp [zrmash_io_prepare, hm]
  · by_cases hf : env.filename_ok = false
    · simp [zrmash_io_prepare, hm, hf]
    · rw [Bool.not_eq_false] at hm hf
      have hstep := prepare_create_step env file_size true hm hf (Or.inl rfl)
      have hstep2 := prepare_create_step
        { env with
          open_read_ok := b1,
          stat_ok := b2,
          read_ok := b3,
          found_size := n,
          file_magic := m } file_size true hm hf (Or.inl rfl)
      have hcongr := prepare_create_congr
        { env with
          open_read_ok := b1,
          stat_ok := b2,
          read_ok := b3,
          found_size := n,
          file_magic := m } env file_size (!true) rfl rfl rfl rfl
      rcases prepare_create_trace env file_size (!true) with ⟨t1, t2, t3⟩
      refine ⟨by rw [hstep]; exact t1, by rw [hstep]; exact t2,
        by rw [hstep]; exact t3, ?_, by rw [hstep, hstep2]; exact hcongr⟩
      rcases prepare_create_rc env file_size (!true) with ⟨r1, _, _⟩ | ⟨r1, _⟩ <;>
        · rw [hstep, r1]
          simp

/-- C6 witness: a concrete forced run neither opens nor reads the existing
file and does not return the match code. -/
theorem io_prepare_force_skips_existing_witness :
    (zrmash_io_prepare allOkEnv 48 true).openAttempted = false ∧
    (zrmash_io_prepare allOkEnv 48 true).rc ≠ .MEMO_MATCH :=
  ⟨(io_prepare_force_skips_existing allOkEnv 48 true true true 0 0).1,
   (io_prepare_force_skips_existing allOkEnv 48 true true true 0 0).2.2.2.1⟩

/-- C4 counterexample: with the file present and correctly sized
(24 = 16 + 8 bytes) but the read of the 8-byte magic number failing with
an I/O error, `zrmash_io_prepare` returns the size-mismatch code — a
regenerate signal — and not the fatal `FAIL` code: this read failure is
not surfaced to the caller as fatal, contradicting the claim that every
listed I/O failure is. -/
theorem io_prepare_read_failure_not_fatal :
    (zrmash_io_prepare { allOkEnv with read_ok := false } 16 false).readAttempted
        = true ∧
    (zrmash_io_prepare { allOkEnv with read_ok := false } 16 false).rc =
        .MEMO_SIZE_MISMATCH ∧
    (zrmash_io_prepare { allOkEnv with read_ok := false } 16 false).rc ≠
        .FAIL := by decide

/-- C4 (amended): every I/O failure inside `zrmash_io_prepare` — directory
creation, pathname construction, size query, creation-path open, seek,
sentinel write, flush — is surfaced to the caller as the fatal `FAIL`
code, with one exception: a failure of the `fread` of the magic number
from an existing file of accepted size is reported as the size-mismatch
code (treated as a rebuild signal), not as `FAIL`. -/
theorem io_prepare_failures_surfaced (env : IOEnv) (file_size : Nat)
    (force_create : Bool) :
    (env.mkdir_ok = false →
      (zrmash_io_prepare env file_size force_create).rc = .FAIL) ∧
    (env.mkdir_ok = true → env.filename_ok = false →
      (zrmash_io_prepare env file_size force_create).rc = .FAIL) ∧
    (env.mkdir_ok = true → env.filename_ok = true → force_create = false →
      env.open_read_ok = true → env.stat_ok = false →
      (zrmash_io_prepare env file_size force_create).rc = .FAIL) ∧
    (env.mkdir_ok = true → env.filename_ok = true → force_create = false →
      env.open_read_ok = true → env.stat_ok = true →
      file_size % UINT64_MOD = foundMinusMagic env.found_size →
      env.read_ok = false →
      (zrmash_io_prepare env file_size force_create).rc = .MEMO_SIZE_MISMATCH ∧
      (zrmash_io_prepare env file_size force_create).rc ≠ .FAIL) ∧
    (env.mkdir_ok = true → env.filename_ok = true →
      (force_create = true ∨ env.open_read_ok = false) →
      env.open_write_ok = false →
      (zrmash_io_prepare env file_size force_create).rc = .FAIL) ∧
    (env.mkdir_ok = true → env.filename_ok = true →
      (force_create = true ∨ env.open_read_ok = false) →
      env.open_write_ok = true →
      (env.seek_ok = false ∨ LONG_BOUND ≤ seekTarget file_size) →
      (zrmash_io_prepare env file_size force_create).rc = .FAIL) ∧
    (env.mkdir_ok = true → env.filename_ok = true →
      (force_create = true ∨ env.open_read_ok = false) →
      env.open_write_ok = true → env.seek_ok = true →
      seekTarget file_size < LONG_BOUND → env.write_ok = false →
      (zrmash_io_prepare env file_size force_create).rc = .FAIL) ∧
    (env.mkdir_ok = true → env.filename_ok = true →
      (force_create = true ∨ env.open_read_ok = false) →
      env.open_write_ok = true → env.seek_ok = true →
      seekTarget file_size < LONG_BOUND → env.write_ok = true →
      env.flush_ok = false →
      (zrmash_io_prepare env file_size force_create).rc = .FAIL) := by
  refine ⟨?_, ?_, ?_, ?_, ?_, ?_, ?_, ?_⟩
  · intro h
    simp [zrmash_io_prepare, h]
  · intro hm hf
    simp [zrmash_io_prepare, hm, hf]
  · intro hm hf hfc ho hs
    simp [zrmash_io_prepare, hm, hf, hfc, ho, hs]
  · intro hm hf hfc ho hs hsz hro
    have hrc : (zrmash_io_prepare env file_size force_create).rc =
        .MEMO_SIZE_MISMATCH := by
      simp [zrmash_io_prepare, hm, hf, hfc, ho, hs, hsz, hro]
    exact ⟨hrc, by rw [hrc]; simp⟩
  · intro hm hf hc hw
    rw [prepare_create_step env file_size force_create hm hf hc]
    simp [zrmash_io_prepare_create, hw]
  · intro hm hf hc hw hseq
    rw [prepare_create_step env file_size force_create hm hf hc]
    simp [zrmash_io_prepare_create, hw, hseq]
  · intro hm hf hc hw hsk hlt hwr
    have hnb : ¬ (env.seek_ok = false ∨ LONG_BOUND ≤ seekTarget file_size) := by
      rw [hsk]
      simp [Nat.not_le.mpr hlt]
    rw [prepare_create_step env file_size force_create hm hf hc]
    simp [zrmash_io_prepare_create, hw, hnb, hwr]
  · intro hm hf hc hw hsk hlt hwr hfl
    have hnb : ¬ (env.seek_ok = false ∨ LONG_BOUND ≤ seekTarget file_size) := by
      rw [hsk]
      simp [Nat.not_le.mpr hlt]
    rw [prepare_create_step env file_size force_create hm hf hc]
    simp [zrmash_io_prepare_create, hw, hnb, hwr, hfl]

/-- C4 (amended) witness: a failed directory creation is surfaced as the
fatal `FAIL` code. -/
theorem io_prepare_failures_surfaced_witness :
    (zrmash_io_prepare { allOkEnv with mkdir_ok := false } 16 false).rc =
      .FAIL :=
  (io_prepare_failures_surfaced { allOkEnv with mkdir_ok := false } 16
    false).1 rfl

/-- C9: `zrmash_io_prepare` stores a handle into `*output_file` exactly
when it returns the match or the mismatch-created code; on every
size-mismatch or fail return the out-parameter is untouched and every
file handle the function opened has been closed again. -/
theorem io_prepare_output_discipline (env : IOEnv) (file_size : Nat)
    (force_create : Bool) :
    ((zrmash_io_prepare env file_size force_create).outputWritten = true ↔
      ((zrmash_io_prepare env file_size force_create).rc = .MEMO_MATCH ∨
        (zrmash_io_prepare env file_size force_create).rc = .MEMO_MISMATCH)) ∧
    (((zrmash_io_prepare env file_size force_create).rc = .MEMO_SIZE_MISMATCH ∨
        (zrmash_io_prepare env file_size force_create).rc = .FAIL) →
      (zrmash_io_prepare env file_size force_create).outputWritten = false ∧
      (zrmash_io_prepare env file_size force_create).closes =
        (zrmash_io_prepare env file_size force_create).opens) := by
  unfold zrmash_io_prepare zrmash_io_prepare_create
  split_ifs <;> simp

/-- C9 witness: on a concrete size-mismatch run nothing is written to the
out-parameter and the opened handle is closed again. -/
theorem io_prepare_output_discipline_witness :
    (zrmash_io_prepare { allOkEnv with found_size := 11 } 16 false).outputWritten
        = false ∧
    (zrmash_io_prepare { allOkEnv with found_size := 11 } 16 false).closes =
      (zrmash_io_prepare { allOkEnv with found_size := 11 } 16 false).opens :=
  (io_prepare_output_discipline { allOkEnv with found_size := 11 } 16
    false).2 (Or.inl (by decide))

/-- C7: a configuration whose sync mode is light sync, or is not a valid
sync mode, is rejected by `New` at construction time: the service pointer
is nil, a descriptive error (the light-sync error or the invalid-sync-mode
error carrying the offending mode) is returned, and neither a consensus
engine nor any blockchain state has been created. -/
theorem new_rejects_bad_sync_mode (isValid : Nat → Bool) (env : NewEnv)
    (config : Config)
    (h : config.SyncMode = LightSync ∨ isValid config.SyncMode = false) :
    (New isValid env config).service = none ∧
    ((New isValid env config).err = some .lightSyncUnsupported ∨
      (New isValid env config).err = some (.invalidSyncMode config.SyncMode)) ∧
    (New isValid env config).engineCreated = false ∧
    (New isValid env config).blockchainCreated = false := by
  by_cases hl : config.SyncMode = LightSync
  · simp [New, hl]
  · rcases h with h | h
    · exact absurd h hl
    · simp [New, hl, h]

/-- C7 witness: light-sync mode is rejected with a nil service and the
light-sync error, before engine or blockchain creation, even in an
environment in which every later step would succeed. -/
theorem new_rejects_bad_sync_mode_witness :
    (New sampleIsValid okNewEnv { cfg0 with SyncMode := 2 }).service = none ∧
    ((New sampleIsValid okNewEnv { cfg0 with SyncMode := 2 }).err =
        some .lightSyncUnsupported ∨
      (New sampleIsValid okNewEnv { cfg0 with SyncMode := 2 }).err =
        some (.invalidSyncMode 2)) ∧
    (New sampleIsValid okNewEnv { cfg0 with SyncMode := 2 }).engineCreated =
        false ∧
    (New sampleIsValid okNewEnv { cfg0 with SyncMode := 2 }).blockchainCreated =
        false :=
  new_rejects_bad_sync_mode sampleIsValid okNewEnv { cfg0 with SyncMode := 2 }
    (Or.inl rfl)

/-- C8: when proof-of-authority is not configured, `CreateConsensusEngine`
selects the engine by operational mode, in order: the fake engine if
`PowFake` is set, else the reduced-size test engine if `PowTest` is set,
else the shared instance if `PowShared` is set, and otherwise the real
engine configured from the resolved cache directory, the dataset
directory, and the in-memory/on-disk retention settings, with CPU mining
disabled (`SetThreads(-1)`). -/
theorem create_engine_pow_selection (resolvePath : String → String)
    (config : Config) (chainConfig : ChainConfig)
    (h : chainConfig.Clique = none) :
    (config.PowFake = true →
      CreateConsensusEngine resolvePath config chainConfig = .fakeEthash) ∧
    (config.PowFake = false → config.PowTest = true →
      CreateConsensusEngine resolvePath config chainConfig = .testEthash) ∧
    (config.PowFake = false → config.PowTest = false →
      config.PowShared = true →
      CreateConsensusEngine resolvePath config chainConfig = .sharedEthash) ∧
    (config.PowFake = false → config.PowTest = false →
      config.PowShared = false →
      CreateConsensusEngine resolvePath config chainConfig =
        .realEthash (resolvePath config.EthashCacheDir)
          config.EthashCachesInMem config.EthashCachesOnDisk
          config.EthashDatasetDir config.EthashDatasetsInMem
          config.EthashDatasetsOnDisk (-1)) :=
  ⟨fun h1 => by simp [CreateConsensusEngine, h, h1],
    fun h1 h2 => by simp [CreateConsensusEngine, h, h1, h2],
    fun h1 h2 h3 => by simp [CreateConsensusEngine, h, h1, h2, h3],
    fun h1 h2 h3 => by simp [CreateConsensusEngine, h, h1, h2, h3]⟩

/-- C8 witness: with no clique configuration and the fake-PoW flag set,
the fake engine is selected. -/
theorem create_engine_pow_selection_witness :
    CreateConsensusEngine id { cfg0 with PowFake := true } { Clique := none } =
      .fakeEthash :=
  (create_engine_pow_selection id { cfg0 with PowFake := true }
    { Clique := none } rfl).1 rfl

/-- C10: when the chain configuration requests proof-of-authority
(`Clique` non-nil), `CreateConsensusEngine` returns the clique engine
unconditionally: the fake, test and shared PoW mode flags are ignored. -/
theorem create_engine_clique_priority (resolvePath : String → String)
    (config : Config) (chainConfig : ChainConfig) (c : CliqueConfig)
    (h : chainConfig.Clique = some c) :
    CreateConsensusEngine resolvePath config chainConfig = .clique c ∧
    (∀ f t s : Bool,
      CreateConsensusEngine resolvePath
        { config with PowFake := f, PowTest := t, PowShared := s }
        chainConfig = .clique c) := by
  constructor
  · simp [CreateConsensusEngine, h]
  · intro f t s
    simp [CreateConsensusEngine, h]

/-- C10 witness: with a clique configuration present the clique engine is
returned even though the fake-PoW flag is set. -/
theorem create_engine_clique_priority_witness :
    CreateConsensusEngine id { cfg0 with PowFake := true }
      { Clique := some clique0 } = .clique clique0 :=
  (create_engine_clique_priority id { cfg0 with PowFake := true }
    { Clique := some clique0 } clique0 rfl).1

/-- Sanity check of the embedding: in the all-success environment holding
a well-formed 24-byte file for payload size 16, the non-forced run reports
a match, and the forced run recreates the file. -/
theorem io_prepare_allOk_match :
    (zrmash_io_prepare allOkEnv 16 false).rc = .MEMO_MATCH ∧
    (zrmash_io_prepare allOkEnv 16 true).rc = .MEMO_MISMATCH := by decide

/-- Sanity check of the embedding: in the all-success environment `New`
returns a service built on the real zrmash engine with CPU mining
disabled. -/
theorem new_allOk_service :
    (New sampleIsValid okNewEnv cfg0).service =
      some { engine := .realEthash "zrmash" 2 3 "" 1 2 (-1), networkId := 1 } := by
  decide

end Zerium
